import Mathlib

/-!
Shallow embedding of the live-state synchronization and command-dispatch core
of `rtcom.py` (a Flask companion app): the GPS location source adapter
(`get_current_gps`), the background poller (`gps_updater`) writing the shared
`current_gps` dict under `gps_lock`, the point-log reader
(`get_logged_points`), and the command dispatcher (`send_lxmf_command`).

Python scalar values appearing in JSON payloads and request bodies are
modelled by `JVal` (null / int / float-as-rational / string), with Python
truthiness, `abs`, and f-string formatting modelled explicitly where the code
uses them.  Fallible operations (subprocess invocation, `json.loads`) are
modelled by outcome types, and `try/except` blocks by the `Except` monad.
-/

namespace Rtcom

/-- A Python scalar value as it appears in a parsed JSON payload or a request
body: `None`, an `int`, a `float` (modelled exactly as a rational), or a
`str`.  These are the only shapes the modelled code paths inspect. -/
inductive JVal where
  | jnull : JVal
  | jint  : Int → JVal
  | jrat  : ℚ → JVal
  | jstr  : String → JVal
deriving DecidableEq, Repr

/-- Python truthiness for `JVal`: `None` and zero and the empty string are
falsy, everything else is truthy (used by `if not contact_index ...` and by
`if lat and lon and ...`). -/
def JVal.truthy : JVal → Bool
  | .jnull => false
  | .jint n => n ≠ 0
  | .jrat q => q ≠ 0
  | .jstr s => s ≠ ""

/-- Python `abs(v)` on a scalar, as a rational: succeeds on numbers, raises
`TypeError` (modelled as `.error`) on `None` or a string. -/
def JVal.pyAbs : JVal → Except Unit ℚ
  | .jint n => .ok |(n : ℚ)|
  | .jrat q => .ok |q|
  | _ => .error ()

/-- Python f-string interpolation of a scalar value, as used in
`send_lxmf_command`'s message building.  Integers print as decimal numerals,
strings verbatim, `None` as `None`.  (The float case is abstracted by the
rational's own representation; no modelled claim formats a float.) -/
def JVal.pyFormat : JVal → String
  | .jnull => "None"
  | .jint n => toString n
  | .jrat q => toString q
  | .jstr s => s

/-! ## Location source adapter (`get_current_gps`, rtcom.py lines 58-101)

`get_current_gps` runs `termux-location` with provider `gps` (2s timeout),
then — if that attempt falls through without raising — with provider
`network` (1s timeout).  `subprocess.run` either raises
(`TimeoutExpired`, launch failure) or completes with a return code and
stdout; `json.loads` on the stripped stdout either raises or yields a
payload.  All of the body sits in one `try` whose `except Exception`
returns `None`. -/

/-- The parsed JSON payload of one `termux-location` invocation.  Each field
is `some v` when the key is present (with value `v`, possibly `jnull`) and
`none` when the key is absent, mirroring `'latitude' in data` and
`data.get('latitude')`. -/
structure GpsPayload where
  latitude : Option JVal
  longitude : Option JVal
  accuracy : Option JVal
  speed : Option JVal
  altitude : Option JVal
  bearing : Option JVal
  provider : Option JVal
deriving DecidableEq, Repr

/-- The outcome of one `subprocess.run(['termux-location', ...])` call:
either the call raised (timeout expired, process launch failure), or it
completed with a return code, a stripped stdout, and — when `json.loads`
is applied to that stdout — either a parse error or a payload.  The JSON
parse result is carried in the outcome because the parser itself is an
external library call. -/
inductive ProcOutcome where
  | raised : ProcOutcome
  | completed : Int → String → Except Unit GpsPayload → ProcOutcome

/-- One provider attempt (rtcom.py lines 65-79 for `gps`, 82-96 for
`network`): `.ok (some data)` when the payload is accepted as a valid
reading and returned, `.ok none` when the attempt falls through without
raising (non-zero exit, empty stdout, missing coordinate keys, or the
validity test evaluating falsy), `.error ()` when an exception is raised
(by `subprocess.run`, `json.loads`, or `abs` on a non-numeric value) —
short-circuit evaluation of
`lat and lon and (abs(lat) > 0.001 or abs(lon) > 0.001)` included. -/
def attemptProvider (o : ProcOutcome) : Except Unit (Option GpsPayload) :=
  match o with
  | .raised => .error ()
  | .completed returncode stdoutStrip parsed =>
    if returncode = 0 ∧ stdoutStrip ≠ "" then
      match parsed with
      | .error _ => .error ()
      | .ok data =>
        match data.latitude, data.longitude with
        | some lat, some lon =>
          if lat.truthy ∧ lon.truthy then
            match lat.pyAbs with
            | .error e => .error e
            | .ok la =>
              if la > 1/1000 then .ok (some data)
              else
                match lon.pyAbs with
                | .error e => .error e
                | .ok lo => if lo > 1/1000 then .ok (some data) else .ok none
          else .ok none
        | _, _ => .ok none
    else .ok none

/-- The body of `get_current_gps`'s `try` block: the `gps` attempt, then —
only if it fell through without raising — the `network` attempt.  An
exception anywhere propagates out of the whole body. -/
def get_current_gps_try (gps net : ProcOutcome) : Except Unit (Option GpsPayload) :=
  match attemptProvider gps with
  | .error e => .error e
  | .ok (some data) => .ok (some data)
  | .ok none =>
    match attemptProvider net with
    | .error e => .error e
    | .ok (some data) => .ok (some data)
    | .ok none => .ok none

/-- Adapter `get_current_gps` (rtcom.py lines 58-101): `None` off Termux; otherwise
the `try` body with every exception caught and converted to `None`. -/
def get_current_gps (isTermux : Bool) (gps net : ProcOutcome) : Option GpsPayload :=
  if ¬ isTermux then none
  else
    match get_current_gps_try gps net with
    | .ok r => r
    | .error _ => none

/-- Whether evaluation of `get_current_gps`'s body reaches the second
(`network`) `subprocess.run` call: it does exactly when the `gps` attempt
falls through without raising. -/
def networkAttempted (gps : ProcOutcome) : Bool :=
  match attemptProvider gps with
  | .ok none => true
  | _ => false

/-- A representative well-formed `termux-location` payload
(latitude 45.5, longitude 9.2, accuracy 5, speed 0, altitude 120,
no bearing, provider string present). -/
def samplePayload : GpsPayload :=
  ⟨some (.jrat (91/2)), some (.jrat (46/5)), some (.jrat 5), some (.jint 0),
   some (.jrat 120), none, some (.jstr "network")⟩

/-! ## Live state cache and background poller
(`current_gps` / `gps_updater` / `api_current_gps`, rtcom.py lines 36-47,
103-132, 864-868)

The shared dict `current_gps` holds the latest reading plus an availability
flag, guarded by `gps_lock`.  The poller `gps_updater` loops forever: each
tick calls `get_current_gps` inside a `try`, updates the dict under the
lock, and sleeps; any exception escaping the tick body is caught and only
logged.  `api_current_gps` returns the dict under the same lock. -/

/-- The shared `current_gps` dict (rtcom.py lines 36-46): the eight reading
fields plus the availability flag. -/
structure GpsDict where
  latitude : JVal
  longitude : JVal
  accuracy : JVal
  speed : JVal
  altitude : JVal
  bearing : JVal
  provider : JVal
  timestamp : JVal
  available : Bool
deriving DecidableEq, Repr

/-- Initial value of `current_gps` at process start (rtcom.py lines 36-46):
every reading field `None`, `available = False`. -/
def current_gps_init : GpsDict :=
  ⟨.jnull, .jnull, .jnull, .jnull, .jnull, .jnull, .jnull, .jnull, false⟩

/-- The dict written wholesale by a successful tick (rtcom.py lines
115-125): coordinates as delivered, `accuracy`/`speed`/`altitude`
defaulting to `0`, `bearing` defaulting to `None`, `provider` defaulting to
`'unknown'`, the tick's wall-clock ISO timestamp `ts`, and
`available = True`. -/
def successWrite (d : GpsPayload) (ts : String) : GpsDict :=
  ⟨d.latitude.getD .jnull, d.longitude.getD .jnull,
   d.accuracy.getD (.jint 0), d.speed.getD (.jint 0), d.altitude.getD (.jint 0),
   d.bearing.getD .jnull, d.provider.getD (.jstr "unknown"),
   .jstr ts, true⟩

/-- One iteration of the poller loop, from the outside: either
`get_current_gps` returned a result `r` (with the tick's timestamp string
`ts` read from the wall clock), or an exception escaped the tick body and
was caught by the loop's `except`. -/
inductive TickEvent where
  | result : Option GpsPayload → String → TickEvent
  | raised : TickEvent
deriving DecidableEq, Repr

/-- The cache update performed by one tick of `gps_updater` (rtcom.py lines
110-130), under `gps_lock`: a successful reading replaces the whole dict; an
unavailable result (`None`) sets only `available = False`, leaving every
other field as it was; an exception caught by the tick's `except` is only
logged — the dict is not touched at all. -/
def gps_updater_tick (st : GpsDict) (e : TickEvent) : GpsDict :=
  match e with
  | .result (some d) ts => successWrite d ts
  | .result none _ => { st with available := false }
  | .raised => st

/-- Contents of the live state cache after a sequence of completed poller
ticks, starting from the process-start value. -/
def cacheAfter (evs : List TickEvent) : GpsDict :=
  evs.foldl gps_updater_tick current_gps_init

/-- Endpoint `api_current_gps` (rtcom.py lines 864-868): under `gps_lock`,
serialize and return the current dict.  Both the updater's write and this
read hold `gps_lock` for the entire operation, so a read racing the poller
observes the cache after some prefix — the first `k` — of the completed
tick events, never a partially applied write. -/
def api_current_gps (evs : List TickEvent) (k : ℕ) : GpsDict :=
  cacheAfter (List.take k evs)

/-- The eight reading fields of the cache — everything except the
availability flag. -/
def readingFields (st : GpsDict) :
    JVal × JVal × JVal × JVal × JVal × JVal × JVal × JVal :=
  (st.latitude, st.longitude, st.accuracy, st.speed, st.altitude,
   st.bearing, st.provider, st.timestamp)

/-- A tick that did not produce a valid reading: either `get_current_gps`
returned `None`, or an exception escaped the tick body. -/
def isFailTick : TickEvent → Bool
  | .result none _ => true
  | .raised => true
  | .result (some _) _ => false

/-- Observable actions of the `gps_updater` loop (rtcom.py lines 109-132):
it performs the tick body, then `time.sleep(GPS_UPDATE_INTERVAL)`, then
loops — for every tick outcome, exceptions included. -/
inductive LoopAction where
  | tick : TickEvent → LoopAction
  | sleep : LoopAction
deriving DecidableEq, Repr

/-- The action trace of the poller loop over a sequence of tick outcomes:
each tick — whatever its outcome — is followed by a sleep, and the loop
goes on to the next tick. -/
def loopTrace : List TickEvent → List LoopAction
  | [] => []
  | e :: rest => .tick e :: .sleep :: loopTrace rest

/-! ## Point log reader (`get_logged_points`, rtcom.py lines 134-144) -/

/-- One logged point as stored by the external writer (latitude, longitude,
optional rssi, optional snr, display time string). -/
structure LoggedPoint where
  latitude : JVal
  longitude : JVal
  rssi : JVal
  snr : JVal
  time : JVal
deriving DecidableEq, Repr

/-- The state of the point-log backing file as `get_logged_points` finds
it: absent (`os.path.exists` false), unreadable (`open`/read raises),
malformed (`json.load` raises), parsed to a non-dict (`data.get` raises
`AttributeError`), or parsed to a dict whose `points` key is present with a
list or absent. -/
inductive LogFile where
  | absent : LogFile
  | unreadable : LogFile
  | malformed : LogFile
  | parsedNonDict : LogFile
  | parsedDict : Option (List LoggedPoint) → LogFile

/-- Reader `get_logged_points` (rtcom.py lines 134-144): the `points` list
when the file exists, parses, and carries one; the empty list in every
other case — every raising path is caught by the `except` and falls through
to `return []`, and a dict without a `points` key yields the `.get`
default `[]`. -/
def get_logged_points : LogFile → List LoggedPoint
  | .parsedDict (some ps) => ps
  | .parsedDict none => []
  | .absent => []
  | .unreadable => []
  | .malformed => []
  | .parsedNonDict => []

/-! ## Command dispatcher (`send_lxmf_command`, rtcom.py lines 914-958)

The request body is `request.get_json()`: either `None` (no/invalid JSON
body) or a JSON object from which the handler reads `contact_index`,
`command`, `ping_count`, `ping_delay`.  The mailbox file
`rtcom_command.txt` is modelled as `Option String` (`none` = file absent);
a dispatch overwrites it wholesale with the message plus `"\n"`. -/

/-- A parsed JSON request body for the dispatch endpoint: each field is
`some v` when the key is present (with value `v`) and `none` when absent,
mirroring `data.get(key)` / `data.get(key, default)`. -/
structure DispatchRequest where
  contact_index : Option JVal
  command : Option JVal
  ping_count : Option JVal
  ping_delay : Option JVal
deriving DecidableEq, Repr

/-- The structured JSON response of the dispatch endpoint. -/
structure DispatchResult where
  success : Bool
  error : Option String
  message : Option String
deriving DecidableEq, Repr

/-- Handler `send_lxmf_command` (rtcom.py lines 914-958): validates the request,
builds the one-line protocol message, and overwrites the mailbox file.
Input `req = none` models `request.get_json()` returning `None`, on which
`data.get` raises `AttributeError`, caught by the handler's `except` and
converted to a structured failure.  Returns the JSON response together with
the mailbox file contents after the call. -/
def send_lxmf_command (req : Option DispatchRequest) (mailbox : Option String) :
    DispatchResult × Option String :=
  match req with
  | none => (⟨false, some "'NoneType' object has no attribute 'get'", none⟩, mailbox)
  | some data =>
    let contact_index := data.contact_index.getD .jnull
    let command := data.command.getD .jnull
    if ¬ contact_index.truthy ∨ ¬ command.truthy then
      (⟨false, some "Missing required fields", none⟩, mailbox)
    else if command = .jstr "rt" then
      let ping_count := data.ping_count.getD (.jint 10)
      let ping_delay := data.ping_delay.getD (.jint 5)
      let message := "s " ++ contact_index.pyFormat ++ " rt "
        ++ ping_count.pyFormat ++ " " ++ ping_delay.pyFormat
      (⟨true, none, some message⟩, some (message ++ "\n"))
    else if command = .jstr "rs" then
      let message := "s " ++ contact_index.pyFormat ++ " rs"
      (⟨true, none, some message⟩, some (message ++ "\n"))
    else
      (⟨false, some "Unknown command", none⟩, mailbox)

end Rtcom

namespace Rtcom

/-! ## Helper lemmas -/

/-- Setting `available := False` in place leaves all eight reading fields
untouched. -/
lemma readingFields_set_unavailable (st : GpsDict) :
    readingFields { st with available := false } = readingFields st := rfl

/-- Folding tick updates over any list either leaves the reading fields as
they started or sets them, wholesale, to those of one successful tick in
the list. -/
lemma readingFields_foldl (evs : List TickEvent) :
    ∀ st : GpsDict,
      readingFields (evs.foldl gps_updater_tick st) = readingFields st
      ∨ ∃ d ts, TickEvent.result (some d) ts ∈ evs
          ∧ readingFields (evs.foldl gps_updater_tick st)
              = readingFields (successWrite d ts) := by
  induction evs with
  | nil => intro st; exact Or.inl rfl
  | cons e rest ih =>
    intro st
    rw [List.foldl_cons]
    rcases ih (gps_updater_tick st e) with h | ⟨d, ts, hm, h⟩
    · cases e with
      | result r ts0 =>
        cases r with
        | some d => exact Or.inr ⟨d, ts0, List.mem_cons_self _ _, h⟩
        | none => exact Or.inl h
      | raised => exact Or.inl h
    · exact Or.inr ⟨d, ts, List.mem_cons_of_mem _ hm, h⟩

/-- A run of failing ticks (unavailable results or in-tick exceptions)
keeps `available = False` once set and never touches the reading fields. -/
lemma foldl_failTicks (tail : List TickEvent) :
    ∀ st : GpsDict, (∀ e ∈ tail, isFailTick e = true) → st.available = false →
      (tail.foldl gps_updater_tick st).available = false
      ∧ readingFields (tail.foldl gps_updater_tick st) = readingFields st := by
  induction tail with
  | nil => intro st _ hst; exact ⟨hst, rfl⟩
  | cons e rest ih =>
    intro st h hst
    rw [List.foldl_cons]
    have hrest : ∀ x ∈ rest, isFailTick x = true :=
      fun x hx => h x (List.mem_cons_of_mem _ hx)
    cases e with
    | result r ts =>
      cases r with
      | some d =>
        have he := h _ (List.mem_cons_self _ _)
        simp [isFailTick] at he
      | none =>
        have key := ih { st with available := false } hrest rfl
        exact ⟨key.1, key.2.trans rfl⟩
    | raised => exact ih st hrest hst

/-- The loop's action trace distributes over list append. -/
lemma loopTrace_append (l1 l2 : List TickEvent) :
    loopTrace (l1 ++ l2) = loopTrace l1 ++ loopTrace l2 := by
  induction l1 with
  | nil => rfl
  | cons e rest ih => simp [loopTrace, ih]

/-! ## Theorems about the location source adapter -/

/-- C3 counterexample: when the `gps` provider attempt times out
(`subprocess.run` raises, modelled by `ProcOutcome.raised`), the exception
jumps to `get_current_gps`'s outer `except`, so the `network` provider is
never attempted and the function returns unavailable — even when the
network attempt would have produced a valid reading.  The claim states the
network provider is attempted on every failing gps attempt, timeout
included, and that the valid network reading would be returned. -/
theorem c3_timeout_skips_network :
    networkAttempted .raised = false
    ∧ get_current_gps true .raised (.completed 0 "out" (.ok samplePayload)) = none
    ∧ get_current_gps true .raised (.completed 0 "out" (.ok samplePayload))
        ≠ some samplePayload := by
  refine ⟨rfl, rfl, ?_⟩
  intro h
  exact Option.noConfusion h

/-- C3 amended: the fallback to the `network` provider happens exactly when
the `gps` attempt falls through without raising — non-zero exit status,
empty output, missing coordinate keys, or coordinates failing the validity
test — and then the adapter returns whatever the network attempt yields
(its valid reading, or unavailable).  When the gps attempt raises (timeout,
launch failure, malformed JSON output), the network provider is not
attempted and the adapter returns unavailable. -/
theorem c3_fallback_characterization (gps net : ProcOutcome)
    (h : attemptProvider gps = .ok none) :
    networkAttempted gps = true
    ∧ get_current_gps true gps net
        = (match attemptProvider net with
           | .ok r => r
           | .error _ => none) := by
  refine ⟨by simp [networkAttempted, h], ?_⟩
  simp only [get_current_gps, get_current_gps_try, h]
  cases hn : attemptProvider net with
  | error e => simp
  | ok r => cases r <;> simp

/-- Witness for C3 amended: a gps attempt with exit status 1 falls through,
the network attempt yields a valid reading, and that reading is returned. -/
theorem c3_fallback_characterization_witness :
    networkAttempted (.completed 1 "x" (.error ())) = true
    ∧ get_current_gps true (.completed 1 "x" (.error ()))
          (.completed 0 "out" (.ok samplePayload))
        = (match attemptProvider (.completed 0 "out" (.ok samplePayload)) with
           | .ok r => r
           | .error _ => none) :=
  c3_fallback_characterization (.completed 1 "x" (.error ()))
    (.completed 0 "out" (.ok samplePayload)) (by simp [attemptProvider])

/-- C4 counterexample: a payload with latitude exactly `0.0` and longitude
`10.0` is rejected — `0.0` is falsy in Python, so
`if lat and lon and ...` short-circuits to false even though
`abs(10.0) > 0.001` — whereas the claim says such a payload is accepted as
valid. -/
theorem c4_zero_latitude_rejected :
    attemptProvider (.completed 0 "out"
        (.ok ⟨some (.jrat 0), some (.jrat 10), none, none, none, none, none⟩))
      = .ok none
    ∧ get_current_gps true
        (.completed 0 "out"
          (.ok ⟨some (.jrat 0), some (.jrat 10), none, none, none, none, none⟩))
        .raised
      ≠ some ⟨some (.jrat 0), some (.jrat 10), none, none, none, none, none⟩ := by
  constructor
  · simp [attemptProvider, JVal.truthy]
  · simp [get_current_gps, get_current_gps_try, attemptProvider, JVal.truthy]

/-- C4 amended: for a completed provider invocation (exit 0, non-empty
output) whose payload carries numeric coordinates, the payload is accepted
as a valid reading if and only if both coordinates are nonzero (Python
truthiness) and at least one has absolute value greater than 0.001.  In
particular a latitude of exactly `0.0` is rejected regardless of the
longitude. -/
theorem c4_validity_characterization (q r : ℚ) (p : GpsPayload) (s : String)
    (hlat : p.latitude = some (.jrat q)) (hlon : p.longitude = some (.jrat r))
    (hs : s ≠ "") :
    attemptProvider (.completed 0 s (.ok p)) = .ok (some p)
      ↔ q ≠ 0 ∧ r ≠ 0 ∧ (|q| > 1/1000 ∨ |r| > 1/1000) := by
  have hcond : ((0 : Int) = 0 ∧ s ≠ "") := ⟨rfl, hs⟩
  simp only [attemptProvider, hlat, hlon, JVal.truthy, JVal.pyAbs, if_pos hcond]
  by_cases hq : q = 0
  · simp [hq]
  · by_cases hr : r = 0
    · simp [hq, hr]
    · simp only [hq, hr, ne_eq, not_false_eq_true, decide_not, Bool.not_eq_true,
        decide_eq_true_eq, and_self, if_true, true_and, gt_iff_lt]
      by_cases h1 : (1000⁻¹ : ℚ) < |q|
      · simp [hs, h1]
      · by_cases h2 : (1000⁻¹ : ℚ) < |r| <;> simp [hs, h1, h2]

/-- Witness for C4 amended: the sample payload (latitude 45.5,
longitude 9.2) is accepted. -/
theorem c4_validity_characterization_witness :
    attemptProvider (.completed 0 "out" (.ok samplePayload)) = .ok (some samplePayload) :=
  (c4_validity_characterization (91/2) (46/5) samplePayload "out" rfl rfl
      (by decide)).mpr
    ⟨by norm_num, by norm_num, Or.inl (by rw [abs_of_pos] <;> norm_num)⟩

/-- C6: for every platform flag and every pair of provider invocation
outcomes — raising (timeout or launch failure), completing with a JSON
parse error, a non-zero exit, empty output, missing keys, or invalid
coordinates — `get_current_gps` returns a plain `Option` outcome to its
caller: either unavailable (`none`), or a payload that one of the two
provider attempts accepted as a valid reading.  No exception escapes: the
`try` body's error case is mapped to `none`. -/
theorem c6_no_raise (isTermux : Bool) (gps net : ProcOutcome) :
    get_current_gps isTermux gps net = none
    ∨ ∃ d, get_current_gps isTermux gps net = some d
        ∧ (attemptProvider gps = .ok (some d) ∨ attemptProvider net = .ok (some d)) := by
  by_cases hT : isTermux
  · simp only [get_current_gps, hT, not_true_eq_false, if_false, get_current_gps_try]
    cases hg : attemptProvider gps with
    | error e => simp
    | ok r =>
      cases r with
      | some d => exact Or.inr ⟨d, rfl, Or.inl rfl⟩
      | none =>
        cases hn : attemptProvider net with
        | error e => simp
        | ok r2 =>
          cases r2 with
          | some d => exact Or.inr ⟨d, rfl, Or.inr rfl⟩
          | none => simp
  · simp [get_current_gps, hT]

/-! ## Theorems about the command dispatcher -/

/-- C2 counterexample: the dispatcher's closed set of command tokens is
`rt` / `rs`, not `start` / `stop`.  A request with `command="start"`,
`contact_index=3`, `ping_count=10`, `ping_delay=5` is rejected with
`Unknown command` and the mailbox file is left unchanged — it does not
serialize `s 3 rt 10 5` as the claim states. -/
theorem c2_start_is_unknown_command :
    send_lxmf_command
        (some ⟨some (.jint 3), some (.jstr "start"), some (.jint 10), some (.jint 5)⟩)
        (some "old contents")
      = (⟨false, some "Unknown command", none⟩, some "old contents")
    ∧ (send_lxmf_command
        (some ⟨some (.jint 3), some (.jstr "start"), some (.jint 10), some (.jint 5)⟩)
        (some "old contents")).2 ≠ some "s 3 rt 10 5\n" := by
  constructor
  · rfl
  · decide

/-- C2 amended: with the command tokens the code actually accepts —
`command="rt"` (start range test) and `command="rs"` (stop) — the dispatcher
serializes exactly the claimed protocol lines, and after a successful
dispatch the mailbox file's entire contents are that single line followed by
one trailing newline. -/
theorem c2_dispatch_serialization (mailbox : Option String) :
    send_lxmf_command
        (some ⟨some (.jint 3), some (.jstr "rt"), some (.jint 10), some (.jint 5)⟩)
        mailbox
      = (⟨true, none, some "s 3 rt 10 5"⟩, some "s 3 rt 10 5\n")
    ∧ send_lxmf_command
        (some ⟨some (.jint 3), some (.jstr "rs"), none, none⟩)
        mailbox
      = (⟨true, none, some "s 3 rs"⟩, some "s 3 rs\n") := by
  constructor <;> rfl

/-- C5: a dispatch request from whose body `contact_index` or `command` is
absent is rejected with `success = false` and the error message
`Missing required fields`, and the mailbox file is left exactly as it was. -/
theorem c5_missing_field_rejected (data : DispatchRequest) (mailbox : Option String)
    (h : data.contact_index = none ∨ data.command = none) :
    (send_lxmf_command (some data) mailbox).1.success = false
    ∧ (send_lxmf_command (some data) mailbox).1.error = some "Missing required fields"
    ∧ (send_lxmf_command (some data) mailbox).2 = mailbox := by
  rcases data with ⟨ci, cmd, pc, pd⟩
  rcases h with h | h <;> subst h <;>
    simp [send_lxmf_command, JVal.truthy]

/-- Witness for C5 at a concrete input: a request with `command="rt"` but no
`contact_index`, against a mailbox holding `"prev\n"`. -/
theorem c5_missing_field_rejected_witness :
    (send_lxmf_command (some ⟨none, some (.jstr "rt"), none, none⟩) (some "prev\n")).1.success
        = false
    ∧ (send_lxmf_command (some ⟨none, some (.jstr "rt"), none, none⟩) (some "prev\n")).1.error
        = some "Missing required fields"
    ∧ (send_lxmf_command (some ⟨none, some (.jstr "rt"), none, none⟩) (some "prev\n")).2
        = some "prev\n" :=
  c5_missing_field_rejected ⟨none, some (.jstr "rt"), none, none⟩ (some "prev\n") (Or.inl rfl)

/-- C10: a request whose `contact_index` is present but falsy in Python —
the integer `0`, the empty string, or `null` — is rejected with
`success = false` and error `Missing required fields`, and the mailbox file
is unchanged, even though `0` is a well-formed contact index. -/
theorem c10_falsy_contact_index_rejected (data : DispatchRequest) (mailbox : Option String)
    (h : data.contact_index = some (.jint 0) ∨ data.contact_index = some (.jstr "")
         ∨ data.contact_index = some .jnull) :
    (send_lxmf_command (some data) mailbox).1.success = false
    ∧ (send_lxmf_command (some data) mailbox).1.error = some "Missing required fields"
    ∧ (send_lxmf_command (some data) mailbox).2 = mailbox := by
  rcases data with ⟨ci, cmd, pc, pd⟩
  rcases h with h | h | h <;> subst h <;>
    simp [send_lxmf_command, JVal.truthy]

/-- Witness for C10 at a concrete input: `contact_index = 0` with a valid
`command="rt"` and both ping parameters supplied. -/
theorem c10_falsy_contact_index_rejected_witness :
    (send_lxmf_command
        (some ⟨some (.jint 0), some (.jstr "rt"), some (.jint 10), some (.jint 5)⟩)
        (some "prev\n")).1.success = false
    ∧ (send_lxmf_command
        (some ⟨some (.jint 0), some (.jstr "rt"), some (.jint 10), some (.jint 5)⟩)
        (some "prev\n")).1.error = some "Missing required fields"
    ∧ (send_lxmf_command
        (some ⟨some (.jint 0), some (.jstr "rt"), some (.jint 10), some (.jint 5)⟩)
        (some "prev\n")).2 = some "prev\n" :=
  c10_falsy_contact_index_rejected
    ⟨some (.jint 0), some (.jstr "rt"), some (.jint 10), some (.jint 5)⟩
    (some "prev\n") (Or.inl rfl)

/-! ## Theorems about the live state cache and poller -/

/-- C1 counterexample: after a successful tick (latitude 45.5) followed by
an unavailable tick, a read of the current-position endpoint reports
`available = false` but `latitude` still holds `45.5`, not `null` — the
failure branch of `gps_updater` sets only the flag and retains the last
successful reading's fields, contradicting the claim that all other fields
are null. -/
theorem c1_stale_fields_counterexample :
    (api_current_gps
        [TickEvent.result (some samplePayload) "t1", TickEvent.result none "t2"]
        2).available = false
    ∧ (api_current_gps
        [TickEvent.result (some samplePayload) "t1", TickEvent.result none "t2"]
        2).latitude = JVal.jrat (91/2)
    ∧ (api_current_gps
        [TickEvent.result (some samplePayload) "t1", TickEvent.result none "t2"]
        2).latitude ≠ JVal.jnull := by
  refine ⟨rfl, rfl, ?_⟩
  intro h
  rw [show (api_current_gps
      [TickEvent.result (some samplePayload) "t1", TickEvent.result none "t2"]
      2).latitude = JVal.jrat (91/2) from rfl] at h
  exact JVal.noConfusion h

/-- C1 amended: after a tick on which the adapter returned unavailable,
every read before the next successful tick (i.e. across any further run of
failing or exception ticks) reports `available = false`, while the other
eight fields retain exactly the values they had before the unavailable
tick — the content of the last successful reading, or the initial nulls. -/
theorem c1_unavailable_flag_holds (evs : List TickEvent) (ts : String)
    (tail : List TickEvent) (h : ∀ e ∈ tail, isFailTick e = true) :
    (cacheAfter (evs ++ TickEvent.result none ts :: tail)).available = false
    ∧ readingFields (cacheAfter (evs ++ TickEvent.result none ts :: tail))
        = readingFields (cacheAfter evs) := by
  have key := foldl_failTicks tail { cacheAfter evs with available := false } h rfl
  rw [cacheAfter, List.foldl_append, List.foldl_cons]
  exact ⟨key.1, key.2.trans rfl⟩

/-- Witness for C1 amended: one successful tick, then an unavailable tick,
then an exception tick — the flag is down and the fields are those of the
successful tick. -/
theorem c1_unavailable_flag_holds_witness :
    (cacheAfter ([TickEvent.result (some samplePayload) "t1"]
        ++ TickEvent.result none "t2" :: [TickEvent.raised])).available = false
    ∧ readingFields (cacheAfter ([TickEvent.result (some samplePayload) "t1"]
        ++ TickEvent.result none "t2" :: [TickEvent.raised]))
        = readingFields (cacheAfter [TickEvent.result (some samplePayload) "t1"]) :=
  c1_unavailable_flag_holds [TickEvent.result (some samplePayload) "t1"] "t2"
    [TickEvent.raised] (by simp [isFailTick])

/-- C7 counterexample: an exception escaping the tick body is caught by the
loop's `except`, which only logs — it does not mark the tick's result
unavailable.  After a successful tick followed by an exception tick the
cache still reports `available = true`, where the claim predicts
`available = false`. -/
theorem c7_exception_not_marked_unavailable :
    (cacheAfter [TickEvent.result (some samplePayload) "t1", TickEvent.raised]).available
      = true := rfl

/-- C7 amended: an exception during a tick is caught and absorbed — the
cache is exactly as if that tick had not happened — and the loop never
terminates on it: the faulty tick is still followed by the fixed-period
sleep and by all subsequent ticks, which are processed unchanged. -/
theorem c7_loop_survives_exception (pre post : List TickEvent) :
    cacheAfter (pre ++ TickEvent.raised :: post) = cacheAfter (pre ++ post)
    ∧ loopTrace (pre ++ TickEvent.raised :: post)
        = loopTrace pre ++ LoopAction.tick TickEvent.raised
            :: LoopAction.sleep :: loopTrace post := by
  constructor
  · rw [cacheAfter, cacheAfter, List.foldl_append, List.foldl_append, List.foldl_cons]
    rfl
  · rw [loopTrace_append]
    rfl

/-! ## Theorem about the point log reader -/

/-- C8: for every state of the point-log backing file — absent, unreadable,
malformed JSON, JSON that is not an object, or an object lacking a `points`
key — `get_logged_points` returns the empty list (no error escapes); when
the file parses to an object carrying a `points` list, that list is
returned as stored. -/
theorem c8_log_reader_total (ps : List LoggedPoint) :
    get_logged_points .absent = []
    ∧ get_logged_points .unreadable = []
    ∧ get_logged_points .malformed = []
    ∧ get_logged_points .parsedNonDict = []
    ∧ get_logged_points (.parsedDict none) = []
    ∧ get_logged_points (.parsedDict (some ps)) = ps :=
  ⟨rfl, rfl, rfl, rfl, rfl, rfl⟩

/-! ## Theorem about read atomicity -/

/-- C9: with the single poller as only writer and reads and writes each
holding `gps_lock` for the whole operation, every read of the live state
cache — i.e. the cache after any prefix of the completed ticks — carries
reading fields that are either all the initial nulls or all the fields
written wholesale by one single successful tick; no mix of latitude,
longitude, accuracy (or any other reading fields) from different ticks is
observable. -/
theorem c9_read_never_torn (evs : List TickEvent) (k : ℕ) :
    readingFields (api_current_gps evs k) = readingFields current_gps_init
    ∨ ∃ d ts, TickEvent.result (some d) ts ∈ List.take k evs
        ∧ readingFields (api_current_gps evs k) = readingFields (successWrite d ts) :=
  readingFields_foldl (List.take k evs) current_gps_init

end Rtcom
